import Mathlib

/-!
Shallow embedding of `src/game.js` (tiny offline runner game).

Numbers are modelled as rationals.  External collaborators are explicit
parameters: the canvas text-measurement API, `Math.random` draws, `Math.sin`,
the reduced-motion media query, the viewport size, and the `localStorage`
surface (whose possible exceptions are modelled with `Except` / a failure
flag).  Each definition mirrors one function or block of the source.
-/

namespace Runner

/-- The emoji font stack string (game.js line 20). -/
def EMOJI_FONT_STACK : String :=
  "\"Noto Color Emoji\",\"Apple Color Emoji\",\"Segoe UI Emoji\",\"Segoe UI Symbol\",sans-serif"

/-- Player face while idle (game.js line 22). -/
def PLAYER_EMOJI_IDLE : String := "🙂"

/-- Player face while running (game.js line 23). -/
def PLAYER_EMOJI_RUN : String := "😄"

/-- Player face on lose (game.js line 24). -/
def PLAYER_EMOJI_LOSE : String := "😞"

/-- Obstacle glyph (game.js line 25). -/
def CACTUS_EMOJI : String := "🌵"

/-- The localStorage key (game.js line 113). -/
def storageKey : String := "sd_runner_best"

/-- Raw metrics reported by `ctx.measureText`; `none` in `ascent`/`descent`
models a non-finite `actualBoundingBoxAscent`/`Descent`, and `none` in
`width` models a falsy (zero or non-finite) `width`, so that the source's
`m.width || fontPx` guard is representable. -/
structure TextMetrics where
  width : Option ℚ
  ascent : Option ℚ
  descent : Option ℚ

/-- Type of the text-measurement surface: given the font string currently set
on the context and the measured text, returns raw metrics. -/
def MeasureApi : Type := String → String → TextMetrics

/-- The template-literal font string set before measuring (game.js line 29). -/
def toFontString (fontPx : ℚ) : String :=
  toString fontPx ++ "px " ++ EMOJI_FONT_STACK

/-- Result of `measureEmoji`. -/
structure EmojiMetrics where
  w : ℚ
  h : ℚ
  ascent : ℚ
  descent : ℚ

/-- `measureEmoji(emoji, fontPx)` (game.js lines 27-38), with the context's
font setting threaded explicitly as state: saves the previous font, sets the
emoji font, measures, restores the font, then applies the deterministic
fallbacks `fontPx * 0.78` / `fontPx * 0.22` for non-finite ascent/descent,
`m.width || fontPx` for a falsy width, and the `max 1` floors. -/
def measureEmoji (api : MeasureApi) (emoji : String) (fontPx : ℚ)
    (ctxFont : String) : EmojiMetrics × String :=
  let prevFont := ctxFont
  let setFont := toFontString fontPx
  let m := api setFont emoji
  let restoredFont := prevFont
  let ascent := match m.ascent with
    | some a => a
    | none => fontPx * (39 / 50)
  let descent := match m.descent with
    | some d => d
    | none => fontPx * (11 / 50)
  let w := max 1 (match m.width with
    | some x => x
    | none => fontPx)
  let h := max 1 (ascent + descent)
  (⟨w, h, ascent, descent⟩, restoredFont)

/-- `measureEmoji` with the context font dropped; its result does not depend
on the incoming font since measurement happens under the freshly set font. -/
def measureEmojiPure (api : MeasureApi) (emoji : String) (fontPx : ℚ) :
    EmojiMetrics :=
  (measureEmoji api emoji fontPx "").1

/-- The fixed ground padding (game.js line 72). -/
def groundPad : ℚ := 22

/-- `groundY()` (game.js lines 153-155): world height minus the ground pad. -/
def groundY (worldH : ℚ) : ℚ := worldH - groundPad

/-- An axis-aligned rectangle `{x, y, w, h}`. -/
structure Rect where
  x : ℚ
  y : ℚ
  w : ℚ
  h : ℚ

/-- `rectsOverlap(a, b)` (game.js lines 157-159): strict AABB overlap test. -/
def rectsOverlap (a b : Rect) : Bool :=
  decide (a.x < b.x + b.w) && decide (a.x + a.w > b.x) &&
  decide (a.y < b.y + b.h) && decide (a.y + a.h > b.y)

/-- The player record (game.js lines 74-90). -/
structure Player where
  x : ℚ
  y : ℚ
  vy : ℚ
  onGround : Bool
  fontPx : ℚ
  w : ℚ
  h : ℚ

/-- `player.jump()` (game.js lines 85-89): no-op unless grounded; otherwise
sets `vy = -460` and clears the grounded flag. -/
def Player.jump (p : Player) : Player :=
  if p.onGround then { p with vy := -460, onGround := false } else p

/-- The player's initial literal fields (game.js lines 74-84). -/
def initPlayer : Player :=
  { x := 46, y := 0, vy := 0, onGround := false, fontPx := 30, w := 22, h := 28 }

/-- One glyph of an obstacle cluster (game.js line 98). -/
structure Glyph where
  emoji : String
  size : ℚ
  dx : ℚ
  w : ℚ
  h : ℚ

/-- An obstacle (game.js lines 92-101). -/
structure Obstacle where
  x : ℚ
  y : ℚ
  w : ℚ
  h : ℚ
  glyphs : List Glyph

/-- The obstacle's collision rectangle as passed to `rectsOverlap`. -/
def Obstacle.toRect (o : Obstacle) : Rect := ⟨o.x, o.y, o.w, o.h⟩

/-- A spark particle (game.js lines 102-103). -/
structure Spark where
  x : ℚ
  y : ℚ
  r : ℚ
  spd : ℚ

/-- One tick's worth of `Math.random()` draws, one named field per call site;
each raw draw lies in `[0, 1)`. -/
structure Rnd where
  count : ℚ
  base : ℚ
  gap : ℚ
  timer : ℚ
  size : ℕ → ℚ
  spark : ℕ → ℚ × ℚ

/-- The environment the game reads from: reduced-motion preference, viewport
size, the measurement API, `Math.sin`, and whether `localStorage.setItem`
throws. -/
structure Env where
  rm : Bool
  worldW : ℚ
  worldH : ℚ
  api : MeasureApi
  sin : ℚ → ℚ
  setItemErr : Bool

/-- JavaScript `Math.round`: round half toward positive infinity. -/
def jround (x : ℚ) : ℤ := ⌊x + 1 / 2⌋

/-- `addSpark(x, y, count)` (game.js lines 161-172): skipped entirely under
reduced motion; otherwise pushes `max(6, min(16, count))` sparks at `(x, y)`
with randomized radius and speed. -/
def addSpark (rm : Bool) (x y : ℚ) (count : ℤ) (rnd : ℕ → ℚ × ℚ)
    (sparks : List Spark) : List Spark :=
  if rm then sparks
  else
    sparks ++ (List.range (max 6 (min 16 count)).toNat).map (fun i =>
      ⟨x, y, 3 / 2 + (rnd i).1 * (11 / 5), 120 + (rnd i).2 * 200⟩)

/-- The glyph-building loop of `spawnObstacle` (game.js lines 180-191),
returning the glyph list, the accumulated `dx`, and the running `maxH`. -/
def spawnGlyphs (api : MeasureApi) (size : ℕ → ℚ) (base gap : ℚ) :
    ℕ → List Glyph × ℚ × ℚ
  | 0 => ([], 0, 0)
  | n + 1 =>
    let acc := spawnGlyphs api size base gap n
    let sz : ℚ := max 18 ((jround (base + (size n * 10 - 5)) : ℤ) : ℚ)
    let m := measureEmojiPure api CACTUS_EMOJI sz
    let gw := max 10 m.w
    let gh := max 14 m.h
    (acc.1 ++ [⟨CACTUS_EMOJI, sz, acc.2.1, gw, gh⟩], acc.2.1 + gw + gap,
      max acc.2.2 gh)

/-- `spawnObstacle()` (game.js lines 174-197): a cactus cluster of 1-3 glyphs
with randomized base size and gap, placed at the right edge of the viewport
resting on the ground line. -/
def spawnObstacle (env : Env) (r : Rnd) : Obstacle :=
  let count : ℕ := (1 + ⌊r.count * 3⌋).toNat
  let base : ℚ := 20 + ((⌊r.base * 14⌋ : ℤ) : ℚ)
  let gap : ℚ := 2 + ((⌊r.gap * 3⌋ : ℤ) : ℚ)
  let acc := spawnGlyphs env.api r.size base gap count
  let w := max 14 (acc.2.1 - gap)
  let h := max 16 acc.2.2
  ⟨env.worldW + 10, groundY env.worldH - h, w, h, acc.1⟩

/-- The whole mutable game state (game.js lines 101-111), with the
`localStorage` slot for `storageKey` carried alongside as `store`. -/
structure GameState where
  player : Player
  obstacles : List Obstacle
  sparks : List Spark
  running : Bool
  started : Bool
  score : ℚ
  best : ℚ
  speed : ℚ
  spawnTimer : ℚ
  store : Option String

/-- The difficulty curve (game.js line 208): `min(520, 260 + score * 0.9)`. -/
def stepSpeed (score : ℚ) : ℚ := min 520 (260 + score * (9 / 10))

/-- Gravity integration and ground clamp (game.js lines 210-220). -/
def stepPlayer (worldH dt : ℚ) (p : Player) : Player :=
  let vy := p.vy + 1200 * dt
  let y := p.y + vy * dt
  let gy := groundY worldH
  if gy ≤ y + p.h then { p with y := gy - p.h, vy := 0, onGround := true }
  else { p with y := y, vy := vy }

/-- The freshly drawn spawn interval (game.js lines 226-228):
`minGap + random * (maxGap - minGap) + max(0, (520 - speed) / 900)`. -/
def freshSpawnTimer (rtimer speed : ℚ) : ℚ :=
  3 / 4 + rtimer * (27 / 20 - 3 / 4) + max 0 ((520 - speed) / 900)

/-- Spawn pacing (game.js lines 222-229): decrement the timer by `dt`; when
it reaches `≤ 0`, spawn exactly one obstacle and reassign the timer. -/
def stepSpawn (env : Env) (r : Rnd) (speed dt spawnTimer : ℚ)
    (obstacles : List Obstacle) : ℚ × List Obstacle :=
  let t := spawnTimer - dt
  if t ≤ 0 then (freshSpawnTimer r.timer speed, obstacles ++ [spawnObstacle env r])
  else (t, obstacles)

/-- Obstacle movement and off-screen culling (game.js lines 231-235). -/
def moveObstacles (speed dt : ℚ) (obs : List Obstacle) : List Obstacle :=
  (obs.map (fun o => { o with x := o.x - speed * dt })).filter
    (fun o => decide ((-30 : ℚ) < o.x + o.w))

/-- Spark drift and decay (game.js lines 237-243); `jsin` stands for
`Math.sin`.  The source mutates `s.x` first, so `s.y` reads the new `x`. -/
def stepSparks (jsin : ℚ → ℚ) (speed dt : ℚ) (sparks : List Spark) :
    List Spark :=
  (sparks.map (fun s =>
    let x := s.x - (speed + s.spd) * dt
    let y := s.y + (jsin (x * (1 / 50)) * 10 + 8) * dt
    let r := s.r * (1 - (9 / 5) * dt)
    ⟨x, y, r, s.spd⟩)).filter (fun s => decide ((1 / 4 : ℚ) < s.r))

/-- `localStorage.setItem(storageKey, v)` wrapped in the source's try/catch
(game.js lines 258-262): a throwing surface leaves the stored value as it
was, and no exception escapes. -/
def writeBest (err : Bool) (store : Option String) (v : String) :
    Option String :=
  if err then store else some v

/-- The post-physics player of one started tick. -/
def tickPlayer (env : Env) (dt : ℚ) (g : GameState) : Player :=
  stepPlayer env.worldH dt g.player

/-- The obstacle list of one started tick after spawn, movement and cull. -/
def tickObstacles (env : Env) (r : Rnd) (dt : ℚ) (g : GameState) :
    List Obstacle :=
  moveObstacles (stepSpeed g.score) dt
    (stepSpawn env r (stepSpeed g.score) dt g.spawnTimer g.obstacles).2

/-- The spark list of one started tick before any collision burst. -/
def tickSparks (env : Env) (dt : ℚ) (g : GameState) : List Spark :=
  stepSparks env.sin (stepSpeed g.score) dt g.sparks

/-- The collision test of one started tick (game.js lines 249-252): the
player's bounding box against every live obstacle. -/
def tickCollides (env : Env) (r : Rnd) (dt : ℚ) (g : GameState) : Bool :=
  (tickObstacles env r dt g).any (fun o =>
    rectsOverlap ⟨(tickPlayer env dt g).x, (tickPlayer env dt g).y,
      (tickPlayer env dt g).w, (tickPlayer env dt g).h⟩ o.toRect)

/-- `update(dt)` (game.js lines 199-267).  When not started, only re-ground
the player.  Otherwise: recompute speed, integrate the player, run spawn
pacing, move obstacles and sparks, accrue score, then test collision; on the
first overlapping obstacle set `running = false`, burst 14 loss sparks at the
player's trailing-bottom corner, and persist `floor(score)` as the new best
when it strictly exceeds the previous best. -/
def update (env : Env) (r : Rnd) (dt : ℚ) (g : GameState) : GameState :=
  if g.started = false then
    { g with player := { g.player with
        onGround := true
        y := groundY env.worldH - g.player.h } }
  else
    let speed := stepSpeed g.score
    let player := tickPlayer env dt g
    let spawnTimer := (stepSpawn env r speed dt g.spawnTimer g.obstacles).1
    let obstacles := tickObstacles env r dt g
    let sparks := tickSparks env dt g
    let score := g.score + dt * 60
    if tickCollides env r dt g then
      let sparks2 := addSpark env.rm (player.x + player.w)
        (player.y + player.h - 6) 14 r.spark sparks
      if (⌊score⌋ : ℚ) > g.best then
        { g with
          player := player
          obstacles := obstacles
          sparks := sparks2
          running := false
          score := score
          speed := speed
          spawnTimer := spawnTimer
          best := (⌊score⌋ : ℚ)
          store := writeBest env.setItemErr g.store (toString (⌊score⌋ : ℤ)) }
      else
        { g with
          player := player
          obstacles := obstacles
          sparks := sparks2
          running := false
          score := score
          speed := speed
          spawnTimer := spawnTimer }
    else
      { g with
        player := player
        obstacles := obstacles
        sparks := sparks
        score := score
        speed := speed
        spawnTimer := spawnTimer }

/-- `reset()` (game.js lines 129-151): clear entity lists, reset flags,
score, speed and spawn timer, re-derive the player's collision box from the
max envelope of the three face glyphs, and re-ground the player. -/
def reset (env : Env) (g : GameState) : GameState :=
  let mIdle := measureEmojiPure env.api PLAYER_EMOJI_IDLE g.player.fontPx
  let mRun := measureEmojiPure env.api PLAYER_EMOJI_RUN g.player.fontPx
  let mLose := measureEmojiPure env.api PLAYER_EMOJI_LOSE g.player.fontPx
  let maxW := max mIdle.w (max mRun.w mLose.w)
  let maxH := max mIdle.h (max mRun.h mLose.h)
  let w := max 18 (maxW * (23 / 25))
  let h := max 22 (maxH * (23 / 25))
  { g with
    obstacles := []
    sparks := []
    running := true
    started := false
    score := 0
    speed := 260
    spawnTimer := 0
    player := { g.player with
      w := w
      h := h
      vy := 0
      onGround := true
      y := groundY env.worldH - h } }

/-- `restart()` (game.js lines 420-423): full reset, then mark started. -/
def restart (env : Env) (g : GameState) : GameState :=
  { reset env g with started := true }

/-- The frame-delta clamp of `loop` (game.js line 476), taking `now - last`
in milliseconds: `min(0.033, max(0, (now - last) / 1000))`. -/
def clampDt (nowSubLast : ℚ) : ℚ :=
  min (33 / 1000) (max 0 (nowSubLast / 1000))

/-- One iteration of `loop(now)` (game.js lines 475-483) restricted to
simulation state: compute the clamped delta, step the simulation when
running, and return the new `last` timestamp. -/
def loopStep (env : Env) (r : Rnd) (now last : ℚ) (g : GameState) :
    GameState × ℚ :=
  let dt := clampDt (now - last)
  ((if g.running then update env r dt g else g), now)

/-- Startup read of the persisted best (game.js lines 113-119).
`getResult` is the outcome of `localStorage.getItem(storageKey)` (`error` =
the surface threw, `ok none` = key missing, `ok (some s)` = stored string);
`parse` models `Number(·)` on a string, `none` meaning a non-finite result.
`Number(null)` is `0`, which is finite. -/
def readBest (parse : String → Option ℚ) :
    Except Unit (Option String) → ℚ
  | Except.error _ => 0
  | Except.ok none => 0
  | Except.ok (some s) =>
    match parse s with
    | some v => v
    | none => 0

/-! Concrete fixtures used to instantiate the theorems below on closed
inputs. -/

/-- A measurement surface that reports no bounding-box metrics at all. -/
def api0 : MeasureApi := fun _ _ => ⟨none, none, none⟩

/-- A concrete environment: motion enabled, 640x200 viewport, the metrics-free
measurement surface, a zero sine oracle, a working storage surface. -/
def env0 : Env := ⟨false, 640, 200, api0, fun _ => 0, false⟩

/-- The environment `env0` with a throwing `localStorage.setItem`. -/
def envErr : Env := { env0 with setItemErr := true }

/-- Concrete random draws, all zero. -/
def rnd0 : Rnd := ⟨0, 0, 0, 0, fun _ => 0, fun _ => (0, 0)⟩

/-- A player grounded on the 200-high viewport's ground line. -/
def pG : Player := { initPlayer with onGround := true, y := 150 }

/-- A started, running session with no obstacles and spawn timer at zero. -/
def gRun : GameState := ⟨pG, [], [], true, true, 0, 0, 260, 0, none⟩

/-- An obstacle placed over the player's position. -/
def ob0 : Obstacle := ⟨50, 150, 20, 28, []⟩

/-- A started, running session about to collide with `ob0`. -/
def gCol : GameState := ⟨pG, [ob0], [], true, true, 0, 0, 260, 5, none⟩

/-! Helper lemmas characterizing `update` field by field. -/

/-- A not-started tick only re-grounds the player. -/
lemma update_not_started (env : Env) (r : Rnd) (dt : ℚ) (g : GameState)
    (hs : g.started = false) :
    update env r dt g = { g with player := { g.player with
      onGround := true
      y := groundY env.worldH - g.player.h } } := by
  simp [update, hs]

/-- Fields of a started tick that do not depend on the collision outcome. -/
lemma update_started_fields (env : Env) (r : Rnd) (dt : ℚ) (g : GameState)
    (hs : g.started = true) :
    (update env r dt g).score = g.score + dt * 60
    ∧ (update env r dt g).speed = stepSpeed g.score
    ∧ (update env r dt g).spawnTimer =
        (stepSpawn env r (stepSpeed g.score) dt g.spawnTimer g.obstacles).1
    ∧ (update env r dt g).obstacles = tickObstacles env r dt g := by
  by_cases hc : tickCollides env r dt g = true
  · by_cases hb : (⌊g.score + dt * 60⌋ : ℚ) > g.best
    · simp [update, hs, hc, hb]
    · simp [update, hs, hc, hb]
  · simp [update, hs, hc]

/-- Fields of a started tick on which a collision was detected. -/
lemma update_collides_fields (env : Env) (r : Rnd) (dt : ℚ) (g : GameState)
    (hs : g.started = true) (hc : tickCollides env r dt g = true) :
    (update env r dt g).running = false
    ∧ (update env r dt g).sparks =
        addSpark env.rm ((tickPlayer env dt g).x + (tickPlayer env dt g).w)
          ((tickPlayer env dt g).y + (tickPlayer env dt g).h - 6) 14 r.spark
          (tickSparks env dt g)
    ∧ (update env r dt g).best =
        (if (⌊g.score + dt * 60⌋ : ℚ) > g.best then (⌊g.score + dt * 60⌋ : ℚ)
         else g.best)
    ∧ (update env r dt g).store =
        (if (⌊g.score + dt * 60⌋ : ℚ) > g.best then
          writeBest env.setItemErr g.store (toString (⌊g.score + dt * 60⌋ : ℤ))
         else g.store) := by
  by_cases hb : (⌊g.score + dt * 60⌋ : ℚ) > g.best
  · simp [update, hs, hc, hb]
  · simp [update, hs, hc, hb]

/-- Fields of a started tick on which no collision was detected. -/
lemma update_not_collides_fields (env : Env) (r : Rnd) (dt : ℚ) (g : GameState)
    (hs : g.started = true) (hc : tickCollides env r dt g = false) :
    (update env r dt g).running = g.running
    ∧ (update env r dt g).sparks = tickSparks env dt g
    ∧ (update env r dt g).best = g.best
    ∧ (update env r dt g).store = g.store := by
  simp [update, hs, hc]

/-- The spark burst appends exactly `max(6, min(16, count))` particles when
motion effects are enabled. -/
lemma addSpark_length (x y : ℚ) (count : ℤ) (rnd : ℕ → ℚ × ℚ)
    (sparks : List Spark) :
    (addSpark false x y count rnd sparks).length =
      sparks.length + (max 6 (min 16 count)).toNat := by
  simp [addSpark]

/-- C1: `rectsOverlap a b` returns true iff all four strict half-plane tests
hold, so two rectangles sharing only an edge (such as `a.x + a.w = b.x`) do
not register as overlapping. -/
theorem rectsOverlap_strict_iff (a b : Rect) :
    (rectsOverlap a b = true ↔
      (a.x < b.x + b.w ∧ a.x + a.w > b.x ∧ a.y < b.y + b.h ∧ a.y + a.h > b.y))
    ∧ (a.x + a.w = b.x → rectsOverlap a b = false) := by
  constructor
  · simp [rectsOverlap, and_assoc]
  · intro h
    simp [rectsOverlap, h]

/-- Witness for C1 at concrete rectangles sharing only the edge `x = 1`. -/
theorem rectsOverlap_strict_iff_witness :
    rectsOverlap ⟨0, 0, 1, 1⟩ ⟨1, 0, 1, 1⟩ = false :=
  (rectsOverlap_strict_iff ⟨0, 0, 1, 1⟩ ⟨1, 0, 1, 1⟩).2 (by norm_num)

/-- C3: the jump command is a no-op unless grounded; when grounded it sets
`vy = -460` and clears the grounded flag, and a second jump issued right
after (while airborne) has no further effect. -/
theorem player_jump_spec (p : Player) :
    (p.onGround = false → p.jump = p)
    ∧ (p.onGround = true →
        p.jump = { p with vy := -460, onGround := false }
        ∧ p.jump.jump = p.jump) := by
  constructor
  · intro h
    simp [Player.jump, h]
  · intro h
    constructor
    · simp [Player.jump, h]
    · simp [Player.jump, h]

/-- Witness for C3 at a concrete grounded player. -/
theorem player_jump_spec_witness :
    pG.jump = { pG with vy := -460, onGround := false }
    ∧ pG.jump.jump = pG.jump :=
  (player_jump_spec pG).2 rfl

/-- C5: the frame delta handed to the simulation step by the loop is
`min(0.033, max(0, (now - last) / 1000))`, hence at most `1/30` seconds for
every elapsed wall time; in particular a requested 5-second stall (5000 ms)
is applied as at most `1/30` seconds. -/
theorem loop_dt_clamp_spec (x now last : ℚ) (env : Env) (r : Rnd)
    (g : GameState) :
    clampDt x ≤ 1 / 30
    ∧ clampDt 5000 ≤ 1 / 30
    ∧ loopStep env r now last g =
        ((if g.running then update env r (clampDt (now - last)) g else g), now) := by
  refine ⟨?_, ?_, rfl⟩
  · exact le_trans (min_le_left _ _) (by norm_num)
  · exact le_trans (min_le_left _ _) (by norm_num)

/-- C6: restarting from any state empties the obstacle and particle lists,
zeroes the score, resets speed to 260 and the spawn timer to 0, re-grounds
the player at `groundY - playerHeight` with zero vertical velocity and the
grounded flag set, and moves the session to RUNNING (started and running). -/
theorem restart_full_reset_spec (env : Env) (g : GameState) :
    (restart env g).obstacles = []
    ∧ (restart env g).sparks = []
    ∧ (restart env g).score = 0
    ∧ (restart env g).speed = 260
    ∧ (restart env g).spawnTimer = 0
    ∧ (restart env g).player.vy = 0
    ∧ (restart env g).player.onGround = true
    ∧ (restart env g).player.y = groundY env.worldH - (restart env g).player.h
    ∧ (restart env g).started = true
    ∧ (restart env g).running = true := by
  simp [restart, reset]

/-- C4: every started tick recomputes the world speed as
`min(520, 260 + score * 0.9)`; as a function of score this is non-decreasing
with cap 520, and for non-negative scores it lies in `[260, 520]`. -/
theorem speed_curve_spec (env : Env) (r : Rnd) (dt : ℚ) (g : GameState)
    (s1 s2 : ℚ) :
    (g.started = true →
      (update env r dt g).speed = min 520 (260 + g.score * (9 / 10)))
    ∧ (s1 < s2 → stepSpeed s1 ≤ stepSpeed s2 ∧ stepSpeed s2 ≤ 520)
    ∧ (0 ≤ s1 → 260 ≤ stepSpeed s1 ∧ stepSpeed s1 ≤ 520) := by
  refine ⟨?_, ?_, ?_⟩
  · intro hs
    exact (update_started_fields env r dt g hs).2.1
  · intro h
    exact ⟨min_le_min le_rfl (by nlinarith), min_le_left _ _⟩
  · intro h
    exact ⟨le_min (by norm_num) (by nlinarith), min_le_left _ _⟩

/-- Witness for C4 at a concrete started tick and concrete scores. -/
theorem speed_curve_spec_witness :
    (update env0 rnd0 (clampDt 1000) gRun).speed =
      min 520 (260 + gRun.score * (9 / 10))
    ∧ (stepSpeed 0 ≤ stepSpeed 100 ∧ stepSpeed 100 ≤ 520)
    ∧ (260 ≤ stepSpeed 0 ∧ stepSpeed 0 ≤ 520) := by
  have h := speed_curve_spec env0 rnd0 (clampDt 1000) gRun 0 100
  exact ⟨h.1 rfl, h.2.1 (by norm_num), h.2.2 le_rfl⟩

/-- C8: `measureEmoji` restores the context's font setting (caller-invisibly),
substitutes the deterministic fallbacks `0.78 * size` ascent and `0.22 * size`
descent when the measurement API reports non-finite metrics, and always
returns width and height at least 1. -/
theorem measure_restore_fallback_spec (api : MeasureApi) (emoji : String)
    (px : ℚ) (font0 : String) :
    (measureEmoji api emoji px font0).2 = font0
    ∧ 1 ≤ (measureEmoji api emoji px font0).1.w
    ∧ 1 ≤ (measureEmoji api emoji px font0).1.h
    ∧ ((api (toFontString px) emoji).ascent = none →
        (measureEmoji api emoji px font0).1.ascent = px * (39 / 50))
    ∧ ((api (toFontString px) emoji).descent = none →
        (measureEmoji api emoji px font0).1.descent = px * (11 / 50)) := by
  refine ⟨rfl, le_max_left _ _, le_max_left _ _, ?_, ?_⟩
  · intro h
    simp [measureEmoji, h]
  · intro h
    simp [measureEmoji, h]

/-- Witness for C8 at a metrics-free measurement surface: the font string is
restored and both fallbacks kick in. -/
theorem measure_restore_fallback_spec_witness :
    (measureEmoji api0 PLAYER_EMOJI_IDLE 30 "12px serif").2 = "12px serif"
    ∧ (measureEmoji api0 PLAYER_EMOJI_IDLE 30 "12px serif").1.ascent =
        30 * (39 / 50)
    ∧ (measureEmoji api0 PLAYER_EMOJI_IDLE 30 "12px serif").1.descent =
        30 * (11 / 50) := by
  have h := measure_restore_fallback_spec api0 PLAYER_EMOJI_IDLE 30 "12px serif"
  exact ⟨h.1, h.2.2.2.1 rfl, h.2.2.2.2 rfl⟩

/-- C9: the startup read of the persisted best yields 0 when the surface
throws, the key is missing, or the stored value is unparsable; a write
through the try/catch never propagates (a throwing `setItem` leaves the
stored value unchanged while the in-memory best keeps its just-assigned
value). -/
theorem persistence_safe_spec (parse : String → Option ℚ) (s : String)
    (st : Option String) (v : String) (env : Env) (r : Rnd) (dt : ℚ)
    (g : GameState) :
    readBest parse (Except.error ()) = 0
    ∧ readBest parse (Except.ok none) = 0
    ∧ (parse s = none → readBest parse (Except.ok (some s)) = 0)
    ∧ writeBest true st v = st
    ∧ writeBest false st v = some v
    ∧ (env.setItemErr = true → (update env r dt g).store = g.store)
    ∧ (env.setItemErr = true → g.started = true →
        tickCollides env r dt g = true →
        (update env r dt g).best =
          (if (⌊g.score + dt * 60⌋ : ℚ) > g.best then (⌊g.score + dt * 60⌋ : ℚ)
           else g.best)) := by
  refine ⟨rfl, rfl, ?_, rfl, rfl, ?_, ?_⟩
  · intro h
    simp [readBest, h]
  · intro herr
    by_cases hs : g.started = true
    · by_cases hc : tickCollides env r dt g = true
      · have h := (update_collides_fields env r dt g hs hc).2.2.2
        rw [h]
        by_cases hb : (⌊g.score + dt * 60⌋ : ℚ) > g.best
        · simp [hb, writeBest, herr]
        · simp [hb]
      · exact (update_not_collides_fields env r dt g hs
          (by simpa using hc)).2.2.2
    · have h := update_not_started env r dt g (by simpa using hs)
      rw [h]
  · intro herr hs hc
    exact (update_collides_fields env r dt g hs hc).2.2.1

/-- Witness for C9: an always-non-finite parse, a missing key, a throwing
surface, and a concrete colliding tick under a throwing `setItem`. -/
theorem persistence_safe_spec_witness :
    readBest (fun _ => none) (Except.error ()) = 0
    ∧ readBest (fun _ => none) (Except.ok (some "abc")) = 0
    ∧ writeBest true (some "7") "9" = some "7"
    ∧ (update envErr rnd0 (clampDt 1000) gCol).store = gCol.store := by
  have h := persistence_safe_spec (fun _ => none) "abc" (some "7") "9" envErr
    rnd0 (clampDt 1000) gCol
  exact ⟨h.1, h.2.2.1 rfl, h.2.2.2.1, h.2.2.2.2.2.1 rfl⟩

/-- C2: on a started tick whose collision test fires, running becomes false,
a burst of 14 loss sparks is appended at the player's trailing-bottom corner
(skipped entirely under reduced motion), the best is updated to the floored
score and persisted exactly when it strictly exceeds the previous best, and
on such a tick the resulting best is at least the floored score; moreover
best never decreases across any tick or restart. -/
theorem collision_loss_spec (env : Env) (r : Rnd) (dt : ℚ) (g : GameState) :
    (g.started = true → tickCollides env r dt g = true →
      ((update env r dt g).running = false
      ∧ (update env r dt g).sparks =
          addSpark env.rm ((tickPlayer env dt g).x + (tickPlayer env dt g).w)
            ((tickPlayer env dt g).y + (tickPlayer env dt g).h - 6) 14 r.spark
            (tickSparks env dt g)
      ∧ (env.rm = false →
          (update env r dt g).sparks.length = (tickSparks env dt g).length + 14)
      ∧ (env.rm = true → (update env r dt g).sparks = tickSparks env dt g)
      ∧ (update env r dt g).best =
          (if (⌊g.score + dt * 60⌋ : ℚ) > g.best then (⌊g.score + dt * 60⌋ : ℚ)
           else g.best)
      ∧ ((⌊g.score + dt * 60⌋ : ℚ) > g.best → env.setItemErr = false →
          (update env r dt g).store = some (toString (⌊g.score + dt * 60⌋ : ℤ)))
      ∧ (¬ (⌊g.score + dt * 60⌋ : ℚ) > g.best →
          (update env r dt g).store = g.store)
      ∧ (⌊(update env r dt g).score⌋ : ℚ) ≤ (update env r dt g).best))
    ∧ g.best ≤ (update env r dt g).best
    ∧ (restart env g).best = g.best := by
  refine ⟨?_, ?_, by simp [restart, reset]⟩
  · intro hs hc
    obtain ⟨hrun, hsp, hbest, hstore⟩ := update_collides_fields env r dt g hs hc
    have hscore := (update_started_fields env r dt g hs).1
    refine ⟨hrun, hsp, ?_, ?_, hbest, ?_, ?_, ?_⟩
    · intro hrm
      rw [hsp, hrm, addSpark_length]
      rfl
    · intro hrm
      rw [hsp, hrm]
      simp [addSpark]
    · intro hb herr
      rw [hstore]
      simp [hb, writeBest, herr]
    · intro hb
      rw [hstore]
      simp [hb]
    · rw [hscore, hbest]
      by_cases hb : (⌊g.score + dt * 60⌋ : ℚ) > g.best
      · simp [hb]
      · simp [hb]
        exact le_of_not_lt hb
  · by_cases hs : g.started = true
    · by_cases hc : tickCollides env r dt g = true
      · rw [(update_collides_fields env r dt g hs hc).2.2.1]
        by_cases hb : (⌊g.score + dt * 60⌋ : ℚ) > g.best
        · simp [hb]
          exact le_of_lt hb
        · simp [hb]
      · rw [(update_not_collides_fields env r dt g hs (by simpa using hc)).2.2.1]
    · rw [update_not_started env r dt g (by simpa using hs)]

/-- Witness for C2 at a concrete colliding tick with motion enabled. -/
theorem collision_loss_spec_witness :
    (update env0 rnd0 (clampDt 1000) gCol).running = false
    ∧ (update env0 rnd0 (clampDt 1000) gCol).sparks.length =
        (tickSparks env0 (clampDt 1000) gCol).length + 14
    ∧ (⌊(update env0 rnd0 (clampDt 1000) gCol).score⌋ : ℚ) ≤
        (update env0 rnd0 (clampDt 1000) gCol).best := by
  have h := (collision_loss_spec env0 rnd0 (clampDt 1000) gCol).1 rfl
    (by norm_num [tickCollides, tickPlayer, tickObstacles, stepPlayer,
      stepSpawn, stepSpeed, freshSpawnTimer, moveObstacles, spawnObstacle,
      spawnGlyphs, measureEmojiPure, measureEmoji, groundY, groundPad, jround,
      rectsOverlap, Obstacle.toRect, clampDt, gCol, ob0, env0, rnd0, pG,
      initPlayer, api0])
  exact ⟨h.1, h.2.2.1 rfl, h.2.2.2.2.2.2.2⟩

/-- C7: on a started tick whose spawn timer, decremented by dt, is at most 0
(even deeply negative), the obstacle list passed on to movement and culling
gains exactly one freshly spawned obstacle, and the timer is reassigned (not
incremented) to `0.75 + rand * 0.6 + max(0, (520 - speed) / 900)`, which is
bounded below by the base random interval and by 0.75. -/
theorem spawn_exactly_one_spec (env : Env) (r : Rnd) (dt : ℚ) (g : GameState)
    (hs : g.started = true) (ht : g.spawnTimer - dt ≤ 0) :
    (update env r dt g).obstacles =
      moveObstacles (stepSpeed g.score) dt (g.obstacles ++ [spawnObstacle env r])
    ∧ (g.obstacles ++ [spawnObstacle env r]).length = g.obstacles.length + 1
    ∧ (update env r dt g).spawnTimer =
        3 / 4 + r.timer * (27 / 20 - 3 / 4) +
          max 0 ((520 - stepSpeed g.score) / 900)
    ∧ (0 ≤ r.timer →
        3 / 4 + r.timer * (27 / 20 - 3 / 4) ≤ (update env r dt g).spawnTimer)
    ∧ (0 ≤ r.timer → 3 / 4 ≤ (update env r dt g).spawnTimer) := by
  have hT := (update_started_fields env r dt g hs).2.2.1
  have hO := (update_started_fields env r dt g hs).2.2.2
  have hTeq : (update env r dt g).spawnTimer =
      freshSpawnTimer r.timer (stepSpeed g.score) := by
    rw [hT]
    simp [stepSpawn, ht]
  refine ⟨?_, by simp, ?_, ?_, ?_⟩
  · rw [hO]
    simp [tickObstacles, stepSpawn, ht]
  · rw [hTeq]
    rfl
  · intro h0
    rw [hTeq]
    unfold freshSpawnTimer
    exact le_add_of_nonneg_right (le_max_left _ _)
  · intro h0
    rw [hTeq]
    unfold freshSpawnTimer
    have h1 : (0 : ℚ) ≤ r.timer * (27 / 20 - 3 / 4) := by nlinarith
    have h2 : (0 : ℚ) ≤ max 0 ((520 - stepSpeed g.score) / 900) :=
      le_max_left _ _
    linarith

/-- Witness for C7 at a concrete started tick whose timer crosses zero. -/
theorem spawn_exactly_one_spec_witness :
    (update env0 rnd0 (clampDt 1000) gRun).spawnTimer =
      3 / 4 + rnd0.timer * (27 / 20 - 3 / 4) +
        max 0 ((520 - stepSpeed gRun.score) / 900)
    ∧ (gRun.obstacles ++ [spawnObstacle env0 rnd0]).length =
        gRun.obstacles.length + 1
    ∧ 3 / 4 ≤ (update env0 rnd0 (clampDt 1000) gRun).spawnTimer := by
  have h := spawn_exactly_one_spec env0 rnd0 (clampDt 1000) gRun rfl
    (by norm_num [clampDt, gRun])
  exact ⟨h.2.2.1, h.2.1, h.2.2.2.2 (by norm_num [rnd0])⟩

/-- C10, counterexample: the claim's consequent fails on the code.  At a
started tick with spawn timer 0 and a legitimate non-negative clamped delta,
the tick reassigns the spawn timer to a fresh interval, which strictly
increases it. -/
theorem tick_spawnTimer_increase_cex :
    0 ≤ clampDt 1000
    ∧ gRun.started = true
    ∧ gRun.spawnTimer < (update env0 rnd0 (clampDt 1000) gRun).spawnTimer := by
  refine ⟨by norm_num [clampDt], rfl, ?_⟩
  norm_num [update, tickCollides, tickPlayer, tickObstacles, tickSparks,
    stepPlayer, stepSparks, stepSpawn, stepSpeed, freshSpawnTimer,
    moveObstacles, spawnObstacle, spawnGlyphs, measureEmojiPure, measureEmoji,
    addSpark, groundY, groundPad, jround, writeBest, rectsOverlap,
    Obstacle.toRect, clampDt, gRun, env0, rnd0, pG, initPlayer, api0]

/-- C10, amended: the loop clamps the frame delta below at 0 (and above), so
the simulation never receives a negative dt; consequently a tick never
decreases the score, and never increases the spawn timer except on a tick
where the decremented timer reaches at most 0, in which case the timer is
reassigned to the fresh spawn interval. -/
theorem tick_monotone_amended (x : ℚ) (env : Env) (r : Rnd) (g : GameState) :
    0 ≤ clampDt x
    ∧ g.score ≤ (update env r (clampDt x) g).score
    ∧ (0 < g.spawnTimer - clampDt x →
        (update env r (clampDt x) g).spawnTimer ≤ g.spawnTimer)
    ∧ (g.started = true → g.spawnTimer - clampDt x ≤ 0 →
        (update env r (clampDt x) g).spawnTimer =
          freshSpawnTimer r.timer (stepSpeed g.score)) := by
  have hdt : 0 ≤ clampDt x := le_min (by norm_num) (le_max_left _ _)
  refine ⟨hdt, ?_, ?_, ?_⟩
  · by_cases hs : g.started = true
    · rw [(update_started_fields env r (clampDt x) g hs).1]
      nlinarith
    · rw [update_not_started env r (clampDt x) g (by simpa using hs)]
  · intro hpos
    by_cases hs : g.started = true
    · rw [(update_started_fields env r (clampDt x) g hs).2.2.1]
      simp [stepSpawn, not_le.mpr hpos]
      linarith
    · rw [update_not_started env r (clampDt x) g (by simpa using hs)]
  · intro hs ht
    rw [(update_started_fields env r (clampDt x) g hs).2.2.1]
    simp [stepSpawn, ht]

/-- Witness for C10's amended theorem at concrete ticks (one with the timer
far from zero, one crossing it). -/
theorem tick_monotone_amended_witness :
    0 ≤ clampDt 1000
    ∧ gCol.score ≤ (update env0 rnd0 (clampDt 1000) gCol).score
    ∧ (update env0 rnd0 (clampDt 1000) gCol).spawnTimer ≤ gCol.spawnTimer
    ∧ (update env0 rnd0 (clampDt 1000) gRun).spawnTimer =
        freshSpawnTimer rnd0.timer (stepSpeed gRun.score) := by
  have h1 := tick_monotone_amended 1000 env0 rnd0 gCol
  have h2 := tick_monotone_amended 1000 env0 rnd0 gRun
  exact ⟨h1.1, h1.2.1, h1.2.2.1 (by norm_num [gCol, clampDt]),
    h2.2.2.2 rfl (by norm_num [gRun, clampDt])⟩

end Runner
